import Mathlib

/-
Verification development for the azclean-platform booking server
(src/server.js).  The server is a single Express handler `POST /api/book`
plus two helpers (`toISO`, `isAvailable`).  We embed it shallowly:

* Instants are epoch milliseconds (`Int`): an ISO string such as
  `2025-06-01T10:00:00.000Z` is represented by the instant it denotes.
  `new Date(dateStr + "T" + timeStr + ":00")` interprets the combined
  date-time in the runtime's local timezone; we model that ambient local
  zone as an explicit fixed offset in minutes (`tzOffsetMinutes`).
  Daylight-saving transitions are not modelled (fixed offset), and
  strings not in strict `YYYY-MM-DD` / `HH:MM` shape fall back to the
  runtime's legacy parser, which we model as invalid (`none`), matching
  the `RangeError` that `toISOString` raises on an invalid date.

* Each external collaborator call (calendar list, datastore add,
  calendar insert, datastore update, message send) is modelled by an
  oracle field of `Env` holding the result the collaborator would
  return (`Except` for failure/success), and by an `Effect` value
  recorded in the order the handler performs the calls.  The `try/catch`
  around the handler body turns any collaborator error into a 500
  response, keeping the effects already performed.
-/

namespace AZClean

/-- Split a character list at every occurrence of `sep` (the behaviour of
JavaScript / Lean `splitOn` for a single-character separator), written by
structural recursion so concrete instances reduce. -/
def splitOnChar (sep : Char) : List Char → List (List Char)
  | [] => [[]]
  | c :: cs =>
    match splitOnChar sep cs with
    | [] => if c = sep then [[], []] else [[c]]
    | g :: gs => if c = sep then [] :: g :: gs else (c :: g) :: gs

/-- Numeric value of a decimal digit character, `none` otherwise. -/
def digitVal (c : Char) : Option Nat :=
  if '0' ≤ c ∧ c ≤ '9' then some (c.toNat - '0'.toNat) else none

/-- Accumulate the decimal value of a digit string. -/
def digitsValAux : List Char → Nat → Option Nat
  | [], acc => some acc
  | c :: cs, acc =>
    match digitVal c with
    | some d => digitsValAux cs (acc * 10 + d)
    | none => none

/-- Decimal value of a non-empty all-digit character list. -/
def digitsVal : List Char → Option Nat
  | [] => none
  | c :: cs => digitsValAux (c :: cs) 0

/-- Gregorian leap-year test. -/
def isLeap (y : Nat) : Bool :=
  (y % 4 == 0 && y % 100 != 0) || y % 400 == 0

/-- Number of days in month `m` of year `y` (`m` between 1 and 12). -/
def daysInMonth (y m : Nat) : Nat :=
  if m == 2 then (if isLeap y then 29 else 28)
  else if m == 4 || m == 6 || m == 9 || m == 11 then 30
  else 31

/-- Days from 1970-01-01 to the civil date `y-m-d` (proleptic Gregorian,
the civil-from-days algorithm used by every date library, including the
one inside the JavaScript runtime's `Date`). -/
def daysFromCivil (y m d : Nat) : Int :=
  let y' := if m ≤ 2 then y - 1 else y
  let era := y' / 400
  let yoe := y' % 400
  let mp := if m > 2 then m - 3 else m + 9
  let doy := (153 * mp + 2) / 5 + (d - 1)
  let doe := yoe * 365 + yoe / 4 - yoe / 100 + doy
  (era : Int) * 146097 + (doe : Int) - 719468

/-- Milliseconds from the local epoch to local `dateStr T timeStr :00`,
for `dateStr` in strict `YYYY-MM-DD` shape and `timeStr` in strict
`HH:MM` shape (the server appends the `:00` seconds itself); `none` for
anything else, which makes the runtime `Date` invalid. -/
def parseLocalDateTimeMs (dateStr timeStr : String) : Option Int :=
  match splitOnChar '-' dateStr.data, splitOnChar ':' timeStr.data with
  | [ys, ms, ds], [hs, mins] =>
    match digitsVal ys, digitsVal ms, digitsVal ds, digitsVal hs, digitsVal mins with
    | some y, some mo, some d, some h, some mi =>
      if ys.length = 4 ∧ ms.length = 2 ∧ ds.length = 2 ∧ hs.length = 2 ∧
          mins.length = 2 ∧ 1 ≤ mo ∧ mo ≤ 12 ∧ 1 ≤ d ∧ d ≤ daysInMonth y mo ∧
          h ≤ 23 ∧ mi ≤ 59 then
        some (daysFromCivil y mo d * 86400000 + ((h * 3600000 + mi * 60000 : Nat) : Int))
      else none
    | _, _, _, _, _ => none
  | _, _ => none

/-- Embedding of `toISO(dateStr, timeStr, tz = process.env.DEFAULT_TZ || 'Europe/Lisbon')`.
The source builds `new Date(dateStr + "T" + timeStr + ":00").toISOString()`:
the `tz` parameter is accepted but never used in the body, and the
instant produced depends only on the runtime's ambient local offset,
passed here explicitly as `tzOffsetMinutes` (minutes east of UTC).
The result is the denoted instant in epoch milliseconds; `none` models
the `RangeError` thrown by `toISOString` on an invalid date. -/
def toISO (dateStr timeStr : String) (tz : String) (tzOffsetMinutes : Int) : Option Int :=
  (parseLocalDateTimeMs dateStr timeStr).map (fun ms => ms - tzOffsetMinutes * 60000)

/-- An event returned by the calendar list query (only its identity
matters to the server: it counts them). -/
structure CalEvent where
  id : String
deriving DecidableEq

/-- The parsed JSON body of `POST /api/book`: each field is absent
(`none`) or a string; `duration` is absent or a number of minutes. -/
structure Request where
  service : Option String
  date : Option String
  time : Option String
  duration : Option Int
  name : Option String
  phone : Option String
  email : Option String
deriving DecidableEq

/-- JavaScript truthiness of an optional string field: `!x` is true
exactly when the field is absent or the empty string. -/
def truthyS : Option String → Bool
  | none => false
  | some s => s ≠ ""

/-- The guard `if (!service || !date || !time || !name || !phone)`. -/
def requiredPresent (req : Request) : Bool :=
  truthyS req.service && truthyS req.date && truthyS req.time &&
    truthyS req.name && truthyS req.phone

/-- The document written by `db.collection('bookings').add({...})`
(the server-side creation timestamp is set by the datastore, not by
the handler, so it is not part of the record the handler determines). -/
structure BookingRecord where
  service : String
  date : String
  time : String
  duration : Int
  name : String
  phone : String
  email : Option String
  status : String
deriving DecidableEq

/-- The record passed to the datastore add call: the raw request fields
with `duration` defaulted to 60 by the destructuring and `status`
fixed to `pending`. -/
def mkRecord (req : Request) : BookingRecord :=
  { service := req.service.getD ""
    date := req.date.getD ""
    time := req.time.getD ""
    duration := req.duration.getD 60
    name := req.name.getD ""
    phone := req.phone.getD ""
    email := req.email
    status := "pending" }

/-- JavaScript `a || b` on an optional string: the default is used when
the field is absent or the empty string. -/
def jsOr (o : Option String) (dflt : String) : String :=
  match o with
  | some s => if s = "" then dflt else s
  | none => dflt

/-- The event resource passed to `calendar.events.insert`. -/
structure CalEventInput where
  summary : String
  description : String
  startMs : Int
  endMs : Int
deriving DecidableEq

/-- Builds the calendar event resource exactly as the handler does. -/
def mkEvent (req : Request) (startMs endMs : Int) : CalEventInput :=
  { summary := "AZ Clean — " ++ req.service.getD "" ++ " - " ++ req.name.getD ""
    description :=
      "Cliente: " ++ req.name.getD "" ++ "\nTelefone: " ++ req.phone.getD "" ++
        "\nEmail: " ++ jsOr req.email "-" ++ "\nServiço: " ++ req.service.getD ""
    startMs := startMs
    endMs := endMs }

/-- Embedding of the destination normalization in the Twilio call:
`phone.startsWith('+') ? phone : '+' + phone`. -/
def normalizePhone (phone : String) : String :=
  if phone.data.head? = some '+' then phone else "+" ++ phone

/-- The WhatsApp confirmation message body. -/
def waBody (req : Request) : String :=
  "AZ Clean: Olá " ++ req.name.getD "" ++ "! Sua marcação para " ++
    req.service.getD "" ++ " foi confirmada em " ++ req.date.getD "" ++
    " às " ++ req.time.getD "" ++ ". Obrigado!"

/-- One external side effect performed by the handler, in order. -/
inductive Effect where
  | calendarList (timeMin timeMax : Int)
  | dbAdd (record : BookingRecord)
  | calendarInsert (event : CalEventInput)
  | dbUpdate (ref : String) (newStatus : String) (calendarEventId : String)
  | twilioSend (fromAddr toAddr bodyMsg : String)
deriving DecidableEq

/-- The JSON body of the HTTP response. -/
inductive Response where
  | success (eventId : String) (bookingId : Option String)
  | missingFields
  | slotNotAvailable
  | internalError (details : String)
deriving DecidableEq

/-- Result of one request: HTTP status, response body, and the external
side effects performed, in order. -/
structure HResult where
  status : Nat
  body : Response
  effects : List Effect
deriving DecidableEq

deriving instance DecidableEq for Except

/-- The process configuration plus the oracle results of the external
collaborator calls this request would trigger. -/
structure Env where
  dbConfigured : Bool
  twilioFrom : Option String
  defaultTz : String
  tzOffsetMinutes : Int
  listResult : Except String (Option (List CalEvent))
  dbAddResult : Except String String
  insertResult : Except String String
  dbUpdateResult : Except String Unit
  twilioResult : Except String Unit
deriving DecidableEq

/-- Embedding of `isAvailable(startISO, endISO)`: performs the calendar
list query over the window and returns whether
`(res.data.items || []).length === 0`; a query error propagates. -/
def isAvailable (env : Env) (startMs endMs : Int) :
    Except String Bool × List Effect :=
  (match env.listResult with
   | Except.error m => Except.error m
   | Except.ok items => Except.ok ((items.getD []).length == 0),
   [Effect.calendarList startMs endMs])

/-- Step 7 of the handler: the Twilio WhatsApp confirmation (skipped when
no sender identity is configured), then the 200 response. -/
def notifyStep (env : Env) (req : Request) (eid : String)
    (bookingRef : Option String) (effs : List Effect) : HResult :=
  match env.twilioFrom with
  | none => ⟨200, Response.success eid bookingRef, effs⟩
  | some fromAddr =>
    let toAddr := "whatsapp:" ++ normalizePhone (req.phone.getD "")
    let effs' := effs ++ [Effect.twilioSend fromAddr toAddr (waBody req)]
    match env.twilioResult with
    | Except.error m => ⟨500, Response.internalError m, effs'⟩
    | Except.ok _ => ⟨200, Response.success eid bookingRef, effs'⟩

/-- Step 6: `if (db && bookingRef) await bookingRef.update({...})`. -/
def updateStep (env : Env) (req : Request) (eid : String)
    (bookingRef : Option String) (effs : List Effect) : HResult :=
  match bookingRef with
  | some bid =>
    if env.dbConfigured then
      let effs' := effs ++ [Effect.dbUpdate bid "confirmed" eid]
      match env.dbUpdateResult with
      | Except.error m => ⟨500, Response.internalError m, effs'⟩
      | Except.ok _ => notifyStep env req eid (some bid) effs'
    else notifyStep env req eid (some bid) effs
  | none => notifyStep env req eid none effs

/-- Step 5: `calendar.events.insert` with the built event resource. -/
def insertStep (env : Env) (req : Request) (startMs endMs : Int)
    (bookingRef : Option String) (effs : List Effect) : HResult :=
  let effs' := effs ++ [Effect.calendarInsert (mkEvent req startMs endMs)]
  match env.insertResult with
  | Except.error m => ⟨500, Response.internalError m, effs'⟩
  | Except.ok eid => updateStep env req eid bookingRef effs'

/-- Step 4: `if (db) bookingRef = await db.collection('bookings').add({...})`. -/
def persistStep (env : Env) (req : Request) (startMs endMs : Int)
    (effs : List Effect) : HResult :=
  if env.dbConfigured then
    let effs' := effs ++ [Effect.dbAdd (mkRecord req)]
    match env.dbAddResult with
    | Except.error m => ⟨500, Response.internalError m, effs'⟩
    | Except.ok bid => insertStep env req startMs endMs (some bid) effs'
  else insertStep env req startMs endMs none effs

/-- Embedding of the whole `POST /api/book` handler: field validation,
time-window normalization, availability check, datastore add, calendar
insert, datastore update, notification, response — with the `try/catch`
mapping every collaborator error to a 500 that keeps the side effects
already performed. -/
def handleBook (env : Env) (req : Request) : HResult :=
  if requiredPresent req then
    match toISO (req.date.getD "") (req.time.getD "") env.defaultTz
        env.tzOffsetMinutes with
    | none => ⟨500, Response.internalError "Invalid time value", []⟩
    | some startMs =>
      let endMs := startMs + (req.duration.getD 60) * 60000
      match isAvailable env startMs endMs with
      | (Except.error m, effs) => ⟨500, Response.internalError m, effs⟩
      | (Except.ok avail, effs) =>
        if avail then persistStep env req startMs endMs effs
        else ⟨409, Response.slotNotAvailable, effs⟩
  else ⟨400, Response.missingFields, []⟩

/-- True on the datastore effects (create and update), false otherwise. -/
def isDbWrite : Effect → Bool
  | Effect.dbAdd _ => true
  | Effect.dbUpdate _ _ _ => true
  | _ => false

/- Concrete fixtures used by the witness theorems. -/

/-- A fully-populated valid request (the end-to-end example of the spec). -/
def reqOk : Request :=
  ⟨some "Limpeza", some "2025-06-01", some "10:00", some 60, some "Ana",
   some "351911111111", none⟩

/-- A request with no phone field. -/
def reqNoPhone : Request :=
  ⟨some "Limpeza", some "2025-06-01", some "10:00", none, some "Ana", none, none⟩

/-- A request whose phone field is present but the empty string. -/
def reqEmptyPhone : Request :=
  { reqOk with phone := some "" }

/-- Environment: datastore configured, no messaging sender, UTC runtime,
empty calendar window, every collaborator call succeeding. -/
def envBase : Env :=
  ⟨true, none, "Europe/Lisbon", 0, Except.ok (some []), Except.ok "b1",
   Except.ok "ev1", Except.ok (), Except.ok ()⟩

/-- Same, but the calendar window already holds an event. -/
def envBusy : Env :=
  { envBase with listResult := Except.ok (some [⟨"existing"⟩]) }

/-- Same as `envBase`, but persistence is disabled. -/
def envNoDb : Env :=
  { envBase with dbConfigured := false }

/-- Same as `envBase`, but the calendar list query fails. -/
def envListErr : Env :=
  { envBase with listResult := Except.error "boom" }

/-- Same as `envBase`, but the calendar insert fails. -/
def envInsFail : Env :=
  { envBase with insertResult := Except.error "calendar down" }

/- Helper lemmas: where a `calendarInsert` effect in the trace can come
from. -/

theorem notifyStep_calendarInsert_mem (env : Env) (req : Request) (eid : String)
    (bookingRef : Option String) (effs : List Effect) (ev : CalEventInput)
    (h : Effect.calendarInsert ev ∈ (notifyStep env req eid bookingRef effs).effects) :
    Effect.calendarInsert ev ∈ effs := by
  unfold notifyStep at h
  cases htf : env.twilioFrom with
  | none => simpa [htf] using h
  | some f =>
    rw [htf] at h
    cases htr : env.twilioResult with
    | error m => rw [htr] at h; simpa using h
    | ok u => rw [htr] at h; simpa using h

theorem updateStep_calendarInsert_mem (env : Env) (req : Request) (eid : String)
    (bookingRef : Option String) (effs : List Effect) (ev : CalEventInput)
    (h : Effect.calendarInsert ev ∈ (updateStep env req eid bookingRef effs).effects) :
    Effect.calendarInsert ev ∈ effs := by
  cases bookingRef with
  | none =>
    simp only [updateStep] at h
    exact notifyStep_calendarInsert_mem _ _ _ _ _ _ h
  | some bid =>
    simp only [updateStep] at h
    by_cases hdb : env.dbConfigured
    · rw [if_pos hdb] at h
      cases hu : env.dbUpdateResult with
      | error m =>
        rw [hu] at h
        simpa using h
      | ok u =>
        rw [hu] at h
        have h2 := notifyStep_calendarInsert_mem _ _ _ _ _ _ h
        simpa using h2
    · rw [if_neg hdb] at h
      exact notifyStep_calendarInsert_mem _ _ _ _ _ _ h

theorem insertStep_calendarInsert_mem (env : Env) (req : Request)
    (startMs endMs : Int) (bookingRef : Option String) (effs : List Effect)
    (ev : CalEventInput)
    (h : Effect.calendarInsert ev ∈ (insertStep env req startMs endMs bookingRef effs).effects) :
    Effect.calendarInsert ev ∈ effs ∨ ev = mkEvent req startMs endMs := by
  simp only [insertStep] at h
  cases hi : env.insertResult with
  | error m =>
    rw [hi] at h
    simp only [List.mem_append, List.mem_singleton] at h
    rcases h with h | h
    · exact Or.inl h
    · injection h with h2
      exact Or.inr h2
  | ok eid =>
    rw [hi] at h
    have h2 := updateStep_calendarInsert_mem _ _ _ _ _ _ h
    simp only [List.mem_append, List.mem_singleton] at h2
    rcases h2 with h2 | h2
    · exact Or.inl h2
    · injection h2 with h3
      exact Or.inr h3

theorem persistStep_calendarInsert_mem (env : Env) (req : Request)
    (startMs endMs : Int) (effs : List Effect) (ev : CalEventInput)
    (h : Effect.calendarInsert ev ∈ (persistStep env req startMs endMs effs).effects) :
    Effect.calendarInsert ev ∈ effs ∨ ev = mkEvent req startMs endMs := by
  simp only [persistStep] at h
  by_cases hdb : env.dbConfigured
  · rw [if_pos hdb] at h
    cases ha : env.dbAddResult with
    | error m =>
      rw [ha] at h
      simp only [List.mem_append, List.mem_singleton] at h
      rcases h with h | h
      · exact Or.inl h
      · exact absurd h (by simp)
    | ok bid =>
      rw [ha] at h
      rcases insertStep_calendarInsert_mem _ _ _ _ _ _ _ h with h2 | h2
      · simp only [List.mem_append, List.mem_singleton] at h2
        rcases h2 with h2 | h2
        · exact Or.inl h2
        · exact absurd h2 (by simp)
      · exact Or.inr h2
  · rw [if_neg hdb] at h
    exact insertStep_calendarInsert_mem _ _ _ _ _ _ _ h

/- Claim theorems. -/

/-- C1: for a request with all required fields, no overlapping calendar
events, and the datastore configured, the handler creates a datastore
record with status pending, then after the calendar insert updates that
same record to confirmed with the calendar event id attached, and
responds 200 with success, the inserted event id, and the created
record id. -/
theorem book_success_persistence (env : Env) (req : Request) (s : Int)
    (items : Option (List CalEvent)) (bid eid : String)
    (hreq : requiredPresent req = true)
    (hparse : toISO (req.date.getD "") (req.time.getD "") env.defaultTz
      env.tzOffsetMinutes = some s)
    (hdb : env.dbConfigured = true)
    (hlist : env.listResult = Except.ok items)
    (hno : items.getD [] = [])
    (hadd : env.dbAddResult = Except.ok bid)
    (hins : env.insertResult = Except.ok eid)
    (hupd : env.dbUpdateResult = Except.ok ())
    (htw : env.twilioFrom = none ∨ env.twilioResult = Except.ok ()) :
    (handleBook env req).status = 200 ∧
    (handleBook env req).body = Response.success eid (some bid) ∧
    (mkRecord req).status = "pending" ∧
    (handleBook env req).effects.take 4 =
      [Effect.calendarList s (s + (req.duration.getD 60) * 60000),
       Effect.dbAdd (mkRecord req),
       Effect.calendarInsert (mkEvent req s (s + (req.duration.getD 60) * 60000)),
       Effect.dbUpdate bid "confirmed" eid] := by
  rcases htw with htw | htw
  · simp [handleBook, hreq, hparse, isAvailable, hlist, hno, persistStep, hdb,
      hadd, insertStep, hins, updateStep, hupd, notifyStep, htw, mkRecord]
  · rcases htf : env.twilioFrom with _ | f
    · simp [handleBook, hreq, hparse, isAvailable, hlist, hno, persistStep, hdb,
        hadd, insertStep, hins, updateStep, hupd, notifyStep, htf, mkRecord]
    · simp [handleBook, hreq, hparse, isAvailable, hlist, hno, persistStep, hdb,
        hadd, insertStep, hins, updateStep, hupd, notifyStep, htf, htw, mkRecord]

/-- C1 witness: the theorem applied to the concrete base environment and
the spec's end-to-end example request. -/
theorem book_success_persistence_witness :
    (handleBook envBase reqOk).status = 200 ∧
    (handleBook envBase reqOk).body = Response.success "ev1" (some "b1") ∧
    (mkRecord reqOk).status = "pending" ∧
    (handleBook envBase reqOk).effects.take 4 =
      [Effect.calendarList 1748772000000 (1748772000000 + (reqOk.duration.getD 60) * 60000),
       Effect.dbAdd (mkRecord reqOk),
       Effect.calendarInsert (mkEvent reqOk 1748772000000
         (1748772000000 + (reqOk.duration.getD 60) * 60000)),
       Effect.dbUpdate "b1" "confirmed" "ev1"] :=
  book_success_persistence envBase reqOk 1748772000000 (some []) "b1" "ev1"
    (by decide) (by decide) rfl rfl rfl rfl rfl rfl (Or.inl rfl)

/-- C2: a request missing any of the five required fields is answered 400
with no external side effect at all. -/
theorem missing_required_field_400 (env : Env) (req : Request)
    (h : req.service = none ∨ req.date = none ∨ req.time = none ∨
      req.name = none ∨ req.phone = none) :
    handleBook env req = ⟨400, Response.missingFields, []⟩ := by
  have hreq : requiredPresent req = false := by
    rcases h with h | h | h | h | h <;> simp [requiredPresent, truthyS, h]
  simp [handleBook, hreq]

/-- C2 witness: a request with no phone field. -/
theorem missing_required_field_400_witness :
    handleBook envBase reqNoPhone = ⟨400, Response.missingFields, []⟩ :=
  missing_required_field_400 envBase reqNoPhone
    (Or.inr (Or.inr (Or.inr (Or.inr rfl))))

/-- C3: when the calendar window overlaps an existing event, the handler
answers 409 and the only external call made is the availability query:
no datastore write, no calendar insert, no notification. -/
theorem conflict_409_no_side_effects (env : Env) (req : Request) (s : Int)
    (items : Option (List CalEvent))
    (hreq : requiredPresent req = true)
    (hparse : toISO (req.date.getD "") (req.time.getD "") env.defaultTz
      env.tzOffsetMinutes = some s)
    (hlist : env.listResult = Except.ok items)
    (hov : items.getD [] ≠ []) :
    handleBook env req =
      ⟨409, Response.slotNotAvailable,
       [Effect.calendarList s (s + (req.duration.getD 60) * 60000)]⟩ := by
  have hlen : ((items.getD []).length == 0) = false := by
    simp [List.length_eq_zero, hov]
  simp [handleBook, hreq, hparse, isAvailable, hlist, hlen]

/-- C3 witness: the busy-calendar environment. -/
theorem conflict_409_no_side_effects_witness :
    handleBook envBusy reqOk =
      ⟨409, Response.slotNotAvailable,
       [Effect.calendarList 1748772000000
         (1748772000000 + (reqOk.duration.getD 60) * 60000)]⟩ :=
  conflict_409_no_side_effects envBusy reqOk 1748772000000
    (some [⟨"existing"⟩]) (by decide) (by decide) rfl (by decide)

/-- C4: a valid non-overlapping request with persistence disabled still
inserts the calendar event and answers 200 with a null booking id, and
no datastore create or update is performed. -/
theorem book_success_no_persistence (env : Env) (req : Request) (s : Int)
    (items : Option (List CalEvent)) (eid : String)
    (hreq : requiredPresent req = true)
    (hparse : toISO (req.date.getD "") (req.time.getD "") env.defaultTz
      env.tzOffsetMinutes = some s)
    (hdb : env.dbConfigured = false)
    (hlist : env.listResult = Except.ok items)
    (hno : items.getD [] = [])
    (hins : env.insertResult = Except.ok eid)
    (htw : env.twilioFrom = none ∨ env.twilioResult = Except.ok ()) :
    (handleBook env req).status = 200 ∧
    (handleBook env req).body = Response.success eid none ∧
    (handleBook env req).effects.take 2 =
      [Effect.calendarList s (s + (req.duration.getD 60) * 60000),
       Effect.calendarInsert (mkEvent req s (s + (req.duration.getD 60) * 60000))] ∧
    ∀ ef ∈ (handleBook env req).effects, isDbWrite ef = false := by
  rcases htw with htw | htw
  · simp [handleBook, hreq, hparse, isAvailable, hlist, hno, persistStep, hdb,
      insertStep, hins, updateStep, notifyStep, htw, isDbWrite]
  · rcases htf : env.twilioFrom with _ | f
    · simp [handleBook, hreq, hparse, isAvailable, hlist, hno, persistStep, hdb,
        insertStep, hins, updateStep, notifyStep, htf, isDbWrite]
    · simp [handleBook, hreq, hparse, isAvailable, hlist, hno, persistStep, hdb,
        insertStep, hins, updateStep, notifyStep, htf, htw, isDbWrite]

/-- C4 witness: the base environment with persistence disabled. -/
theorem book_success_no_persistence_witness :
    (handleBook envNoDb reqOk).status = 200 ∧
    (handleBook envNoDb reqOk).body = Response.success "ev1" none ∧
    (handleBook envNoDb reqOk).effects.take 2 =
      [Effect.calendarList 1748772000000
         (1748772000000 + (reqOk.duration.getD 60) * 60000),
       Effect.calendarInsert (mkEvent reqOk 1748772000000
         (1748772000000 + (reqOk.duration.getD 60) * 60000))] ∧
    ∀ ef ∈ (handleBook envNoDb reqOk).effects, isDbWrite ef = false :=
  book_success_no_persistence envNoDb reqOk 1748772000000 (some []) "ev1"
    (by decide) (by decide) rfl rfl rfl rfl (Or.inl rfl)

/-- C5: the availability check answers true exactly when the calendar
list query over the window returns zero events, it records exactly the
one list query over that window, and a query error propagates to the
caller unchanged. -/
theorem isAvailable_zero_overlap (env : Env) (s e : Int) :
    ((isAvailable env s e).1 = Except.ok true ↔
      ∃ items, env.listResult = Except.ok items ∧ items.getD [] = []) ∧
    (∀ m, env.listResult = Except.error m →
      (isAvailable env s e).1 = Except.error m) ∧
    (isAvailable env s e).2 = [Effect.calendarList s e] := by
  rcases hl : env.listResult with m | items
  · simp [isAvailable, hl]
  · simp [isAvailable, hl, List.length_eq_zero]

/-- C5 witness: a failed list query propagates its error. -/
theorem isAvailable_zero_overlap_witness :
    (isAvailable envListErr 0 1).1 = Except.error "boom" :=
  (isAvailable_zero_overlap envListErr 0 1).2.1 "boom" rfl

/-- C6: every calendar event the handler inserts ends exactly the
request's duration (in minutes, 60 when absent) after it starts. -/
theorem insert_event_duration (env : Env) (req : Request) (ev : CalEventInput)
    (h : Effect.calendarInsert ev ∈ (handleBook env req).effects) :
    ev.endMs = ev.startMs + (req.duration.getD 60) * 60000 := by
  unfold handleBook at h
  by_cases hreq : requiredPresent req
  · rw [if_pos hreq] at h
    cases hp : toISO (req.date.getD "") (req.time.getD "") env.defaultTz
        env.tzOffsetMinutes with
    | none => rw [hp] at h; simp at h
    | some s =>
      rw [hp] at h
      rcases hl : env.listResult with m | items
      · simp [isAvailable, hl] at h
      · simp only [isAvailable, hl] at h
        by_cases hn : ((items.getD []).length == 0) = true
        · rw [hn] at h
          simp only [if_true] at h
          rcases persistStep_calendarInsert_mem _ _ _ _ _ _ h with hmem | hev
          · simp at hmem
          · rw [hev]; rfl
        · rw [Bool.not_eq_true] at hn
          rw [hn] at h
          simp at h
  · rw [if_neg hreq] at h
    simp at h

/-- C6 witness: the end-to-end example request books 2025-06-01 from
10:00 to 11:00 UTC — the inserted event's end is its start plus the
requested 60 minutes. -/
theorem insert_event_duration_witness :
    Effect.calendarInsert (mkEvent reqOk 1748772000000 1748775600000) ∈
      (handleBook envBase reqOk).effects ∧
    (mkEvent reqOk 1748772000000 1748775600000).endMs =
      (mkEvent reqOk 1748772000000 1748775600000).startMs +
        (reqOk.duration.getD 60) * 60000 :=
  ⟨by decide,
   insert_event_duration envBase reqOk
     (mkEvent reqOk 1748772000000 1748775600000) (by decide)⟩

/-- C7: the notification destination number gains a leading plus sign
when it lacks one, and a number that already carries one passes through
unchanged. -/
theorem phone_plus_normalization :
    normalizePhone "351912345678" = "+351912345678" ∧
    normalizePhone "+351912345678" = "+351912345678" ∧
    ∀ p : String, p.data.head? = some '+' → normalizePhone p = p := by
  refine ⟨by decide, by decide, ?_⟩
  intro p hp
  simp [normalizePhone, hp]

/-- C7 witness: the identity clause applied to a concrete number that
already carries the leading plus sign. -/
theorem phone_plus_normalization_witness :
    normalizePhone "+49170000000" = "+49170000000" :=
  phone_plus_normalization.2.2 "+49170000000" (by decide)

/-- C8: when the calendar insert fails after the datastore add
succeeded, the handler answers 500 and the trace ends at the failed
insert: the pending record is neither updated nor deleted, and no
notification is sent. -/
theorem insert_failure_leaves_pending (env : Env) (req : Request) (s : Int)
    (items : Option (List CalEvent)) (bid m : String)
    (hreq : requiredPresent req = true)
    (hparse : toISO (req.date.getD "") (req.time.getD "") env.defaultTz
      env.tzOffsetMinutes = some s)
    (hdb : env.dbConfigured = true)
    (hlist : env.listResult = Except.ok items)
    (hno : items.getD [] = [])
    (hadd : env.dbAddResult = Except.ok bid)
    (hins : env.insertResult = Except.error m) :
    handleBook env req =
      ⟨500, Response.internalError m,
       [Effect.calendarList s (s + (req.duration.getD 60) * 60000),
        Effect.dbAdd (mkRecord req),
        Effect.calendarInsert (mkEvent req s (s + (req.duration.getD 60) * 60000))]⟩ ∧
    (mkRecord req).status = "pending" := by
  constructor
  · simp [handleBook, hreq, hparse, isAvailable, hlist, hno, persistStep, hdb,
      hadd, insertStep, hins]
  · rfl

/-- C8 witness: the base environment with a failing calendar insert. -/
theorem insert_failure_leaves_pending_witness :
    handleBook envInsFail reqOk =
      ⟨500, Response.internalError "calendar down",
       [Effect.calendarList 1748772000000
          (1748772000000 + (reqOk.duration.getD 60) * 60000),
        Effect.dbAdd (mkRecord reqOk),
        Effect.calendarInsert (mkEvent reqOk 1748772000000
          (1748772000000 + (reqOk.duration.getD 60) * 60000))]⟩ ∧
    (mkRecord reqOk).status = "pending" :=
  insert_failure_leaves_pending envInsFail reqOk 1748772000000 (some [])
    "b1" "calendar down" (by decide) (by decide) rfl rfl rfl rfl rfl

/-- C9: the combined instant produced by `toISO` does not depend on the
timezone identifier passed to it (and hence not on the configured
default timezone that merely fills that argument): with the runtime's
ambient offset fixed, two runs with different timezone identifiers give
the same instant. -/
theorem toISO_ignores_tz (d t tz1 tz2 : String) (off : Int) :
    toISO d t tz1 off = toISO d t tz2 off := rfl

/-- C10: a required field that is present but equal to the empty string
fails the truthiness guard exactly like an absent field: the handler
answers 400 with no external side effect. -/
theorem empty_required_field_400 (env : Env) (req : Request)
    (h : req.service = some "" ∨ req.date = some "" ∨ req.time = some "" ∨
      req.name = some "" ∨ req.phone = some "") :
    handleBook env req = ⟨400, Response.missingFields, []⟩ := by
  have hreq : requiredPresent req = false := by
    rcases h with h | h | h | h | h <;> simp [requiredPresent, truthyS, h]
  simp [handleBook, hreq]

/-- C10 witness: a request whose phone field is the empty string. -/
theorem empty_required_field_400_witness :
    handleBook envBase reqEmptyPhone = ⟨400, Response.missingFields, []⟩ :=
  empty_required_field_400 envBase reqEmptyPhone
    (Or.inr (Or.inr (Or.inr (Or.inr rfl))))

end AZClean
